import Mathlib

/-!
Shallow embedding of `desdeo_mcdm/interactive/Nautilus.py` (the NAUTILUS
interactive method) and verification of its specification.

Conventions of the embedding:
* numpy vectors of floats become `List ℚ` (the code performs exact-looking
  rational arithmetic on them; `zip`-style truncation of numpy broadcasting
  mismatches is modelled by `List.zipWith`);
* the external scalar optimizer (`ScalarMinimizer` from `desdeo_tools`) and
  the external problem evaluator are parameters, gathered in an `Env`
  structure; the code of this repository only builds their inputs and
  consumes their outputs;
* Python exceptions become `Except PyErr`; a `KeyError` from reading a
  missing dictionary key and a `TypeError` from doing arithmetic on a `None`
  history slot are distinguished from the validation errors the code raises
  on purpose;
* `None`-padded history lists become `List (Option _)`;
* the Euclidean norm in `calculate_distance` needs real square roots, so the
  distance value lives in `ℝ`; the unguarded division of the source yields a
  non-finite IEEE value (`inf`/`nan`) exactly when the denominator vanishes,
  which the embedding records as `none`.
-/

namespace Nautilus

/-- Validation errors raised by the source as `NautilusException`, one
constructor per distinct `raise` site. -/
inductive NautilusKind where
  | nIterationsMissing
  | stepBackOnFirst
  | usePreviousOnFirst
  | prefMethodMissing
  | prefInfoMissing
  | badPrefMethod
  | rankLengthMismatch
  | rankOutOfRange
  | percLengthMismatch
  | percSumNot100
  | badNIterations
  deriving DecidableEq, Repr

/-- Errors that can escape the embedded code: deliberate `NautilusException`
raises, the `ECMError` raise of `EpsilonConstraintMethod`, and the implicit
Python failure modes (`KeyError` on a missing dict key, `TypeError` when an
unset `None` history slot reaches an arithmetic routine). -/
inductive PyErr where
  | nautilus : NautilusKind → PyErr
  | ecmError
  | keyError
  | typeError
  deriving DecidableEq, Repr

/-- A decision maker's response dictionary.  Each field is `Option` because
the Python dictionary may or may not contain the corresponding key. -/
structure Response where
  n_iterations : Option ℤ := none
  preference_method : Option ℕ := none
  preference_info : Option (List ℚ) := none
  step_back : Option Bool := none
  short_step : Option Bool := none
  use_previous_preference : Option Bool := none
  deriving DecidableEq, Repr

/-- Result record returned by the external `ScalarMinimizer.minimize`:
`{x, fun, success}`. -/
structure SolveResult where
  x : List ℚ
  fun_value : ℚ
  success : Bool
  deriving DecidableEq, Repr

/-- The external collaborators of the Nautilus class: the problem evaluator
(objectives, constraints, variable bounds) and the external scalar optimizer,
one entry point per way the source invokes `ScalarMinimizer`
(`solve_asf` and the epsilon-constraint sub-solves of `calculate_bounds`). -/
structure Env where
  objectives : List ℚ → List ℚ
  constraints : Option (List ℚ → List ℚ)
  variable_upper_bounds : List ℚ
  minimize_asf : List ℚ → List ℚ → List ℚ → List ℚ → List ℚ → SolveResult
  minimize_cons : (List ℚ → ℚ) → (List ℚ → Except PyErr (List ℚ)) → List ℚ → SolveResult

/-- `EpsilonConstraintMethod.evaluate_constraints`: original constraint
values concatenated with the epsilon-constraint values `-(f_j(x) - eps_j)`
for `j ≠ to_be_minimized`; raises `ECMError` when the epsilon vector's
length does not match the number of objectives minus one. -/
def evaluate_constraints (objectives : List ℚ → List ℚ) (to_be_minimized : ℕ)
    (epsilons : List ℚ) (constraints : Option (List ℚ → List ℚ)) (xs : List ℚ) :
    Except PyErr (List ℚ) :=
  let fx := objectives xs
  let epsilon_left_side := (fx.enum.filter (fun p => p.1 != to_be_minimized)).map Prod.snd
  if epsilon_left_side.length ≠ epsilons.length then
    Except.error PyErr.ecmError
  else
    let e := (epsilon_left_side.zip epsilons).map (fun p => -(p.1 - p.2))
    match constraints with
    | some c => Except.ok (c xs ++ e)
    | none => Except.ok e

/-- `EpsilonConstraintMethod.__call__` composed with the `Scalarizer`:
the objective value to be minimized, `objective_vector[0][to_be_minimized]`. -/
def ecm_scalarize (objectives : List ℚ → List ℚ) (to_be_minimized : ℕ)
    (xs : List ℚ) : ℚ :=
  (objectives xs).getD to_be_minimized 0

/-- `Nautilus.calculate_iteration_point`:
`z_next = ((itn - 1) / itn) * z_prev + (1 / itn) * f_current`, element-wise. -/
def calculate_iteration_point (itn : ℤ) (z_prev f_current : List ℚ) : List ℚ :=
  List.zipWith
    (fun z f => (((itn : ℚ) - 1) / (itn : ℚ)) * z + (1 / (itn : ℚ)) * f)
    z_prev f_current

/-- Running the iteration-point recurrence with the remaining-iterations
counter going `n, n - 1, ..., 1` and a constant current objective vector. -/
def iterate_constant : ℕ → List ℚ → List ℚ → List ℚ
  | 0, z, _ => z
  | n + 1, z, f => iterate_constant n (calculate_iteration_point ((n : ℤ) + 1) z f) f

/-- `Nautilus.calculate_preference_factors`: `1 / (p_i * (nadir_i - utopian_i))`
with `p_i` the rank (method 1) or the fractional percentage (method 2);
the Python function implicitly returns `None` on any other method code. -/
def calculate_preference_factors (pref_method : ℕ) (pref_info nadir utopian : List ℚ) :
    Option (List ℚ) :=
  if pref_method = 1 then
    some (List.zipWith3 (fun r_i n_i u_i => 1 / (r_i * (n_i - u_i))) pref_info nadir utopian)
  else if pref_method = 2 then
    let delta_q := pref_info.map (fun p => p / 100)
    some (List.zipWith3 (fun d_i n_i u_i => 1 / (d_i * (n_i - u_i))) delta_q nadir utopian)
  else
    none

/-- Element-wise difference of two vectors. -/
def vsub (a b : List ℚ) : List ℚ := List.zipWith (fun x y => x - y) a b

/-- Sum of squares of the entries of a vector. -/
def sqnorm (v : List ℚ) : ℚ := (v.map (fun x => x * x)).sum

/-- The Euclidean norm `np.linalg.norm(·, ord=2)` of a rational vector. -/
noncomputable def enorm (v : List ℚ) : ℝ := Real.sqrt ((sqnorm v : ℚ) : ℝ)

/-- `Nautilus.calculate_distance`:
`100 * ||z_current - nadir|| / ||f_current - nadir||`.  The source divides
without any guard; when the denominator vanishes the IEEE quotient is `inf`
(or `nan`), i.e. no finite distance is produced, recorded here as `none`. -/
noncomputable def calculate_distance (z_current nadir f_current : List ℚ) : Option ℝ :=
  if sqnorm (vsub f_current nadir) = 0 then none
  else some (enorm (vsub z_current nadir) / enorm (vsub f_current nadir) * 100)

/-- The largest entry of a preference vector, Python's `max`.  The source
only ever applies it after the length check guarantees non-emptiness. -/
def listMax (l : List ℚ) : ℚ := l.foldl max (l.headD 0)

/-- `validate_preferences`: checks presence and well-formedness of
`preference_method` / `preference_info`.  Note that the source only checks
`len(preference_info) < n_objectives` (not inequality) and, for ranks, only
that the maximum rank lies in `[1, n_objectives]`. -/
def validate_preferences (n_objectives : ℕ) (response : Response) :
    Except PyErr Unit :=
  match response.preference_method with
  | none => Except.error (PyErr.nautilus NautilusKind.prefMethodMissing)
  | some pm =>
    match response.preference_info with
    | none => Except.error (PyErr.nautilus NautilusKind.prefInfoMissing)
    | some info =>
      if pm ≠ 1 ∧ pm ≠ 2 then
        Except.error (PyErr.nautilus NautilusKind.badPrefMethod)
      else if pm = 1 then
        if info.length < n_objectives then
          Except.error (PyErr.nautilus NautilusKind.rankLengthMismatch)
        else if ¬ (1 ≤ listMax info ∧ listMax info ≤ (n_objectives : ℚ)) then
          Except.error (PyErr.nautilus NautilusKind.rankOutOfRange)
        else Except.ok ()
      else
        if info.length < n_objectives then
          Except.error (PyErr.nautilus NautilusKind.percLengthMismatch)
        else if info.sum ≠ 100 then
          Except.error (PyErr.nautilus NautilusKind.percSumNot100)
        else Except.ok ()

/-- `validate_n_iterations`: the iteration count must be a positive integer
(the integrality half of the Python `isinstance` check is carried by the
type `ℤ` of the embedding). -/
def validate_n_iterations (n_it : ℤ) : Except PyErr Unit :=
  if n_it < 1 then Except.error (PyErr.nautilus NautilusKind.badNIterations)
  else Except.ok ()

/-- `validate_response`: dispatches between first-iteration validation and
later-turn validation; reading the absent `use_previous_preference` key of a
later-turn response is a `KeyError`. -/
def validate_response (n_objectives : ℕ) (response : Response)
    (first_iteration_bool : Bool) : Except PyErr Unit :=
  let step1 : Except PyErr Unit :=
    if first_iteration_bool then
      if response.n_iterations = none then
        Except.error (PyErr.nautilus NautilusKind.nIterationsMissing)
      else if response.step_back ≠ none then
        Except.error (PyErr.nautilus NautilusKind.stepBackOnFirst)
      else if response.use_previous_preference ≠ none then
        Except.error (PyErr.nautilus NautilusKind.usePreviousOnFirst)
      else validate_preferences n_objectives response
    else
      match response.use_previous_preference with
      | none => Except.error PyErr.keyError
      | some upp =>
        if ¬ upp then validate_preferences n_objectives response
        else Except.ok ()
  match step1 with
  | Except.error e => Except.error e
  | Except.ok _ =>
    match response.n_iterations with
    | some k => validate_n_iterations k
    | none => Except.ok ()

/-- `NautilusRequest.response` setter (lines 258-261): validate the response
as a non-first-iteration response, then store it in `self._response`.  The
setter touches nothing but the request's own `_response` slot; in particular
it reads and writes no Nautilus session state. -/
def set_response (n_objectives : ℕ) (response : Response) : Except PyErr Response :=
  match validate_response n_objectives response false with
  | Except.error e => Except.error e
  | Except.ok _ => Except.ok response

/-- The request payloads produced by the method: the initial request, the
intermediate iteration request, and the terminal `NautilusStopRequest`
(whose `solution` / `objective vector` content is whatever `Option` value
sits in the history slot). -/
inductive Request where
  | initial (ideal nadir : List ℚ) : Request
  | intermediate (ideal nadir : List ℚ) (n_iterations : ℤ)
      (lower_bounds upper_bounds : Option (List ℚ)) (distance : Option (Option ℝ)) : Request
  | stop (solution objective_vector : Option (List ℚ)) (message : String) : Request

/-- `NautilusStopRequest.__init__`: fixed final message. -/
def NautilusStopRequest (x_h f_h : Option (List ℚ)) : Request :=
  Request.stop x_h f_h "Final solution found."

/-- The mutable session state of the `Nautilus` object (the fields of
`__init__` that the iteration logic reads or writes).  History lists are
`None`-padded as in the source. -/
structure NState where
  _ideal : List ℚ
  _nadir : List ℚ
  _utopian : List ℚ
  _xs : List (Option (List ℚ))
  _fs : List (Option (List ℚ))
  _zs : List (Option (List ℚ))
  _ds : List (Option (Option ℝ))
  _lower_bounds : List (Option (List ℚ))
  _upper_bounds : List (Option (List ℚ))
  _step_number : ℕ
  _n_iterations : ℤ
  _n_iterations_left : ℤ
  _preference_method : Option ℕ
  _preference_info : Option (List ℚ)
  _preference_factors : Option (List ℚ)
  _q : Option (List ℚ)
  _step_back : Bool
  _short_step : Bool
  _objective_names_len : ℕ

/-- `Nautilus.solve_asf`: builds the `ReferencePointASF` scalarizer from the
preference factors, nadir and utopian vectors and delegates the minimization
from `x0` to the external scalar optimizer. -/
def solve_asf (env : Env) (ref_point x0 preference_factors nadir utopian : List ℚ) :
    SolveResult :=
  env.minimize_asf ref_point x0 preference_factors nadir utopian

/-- `Nautilus.calculate_bounds`: one epsilon-constraint sub-solve per
objective; the epsilon vector of sub-solve `i` is the previous iteration
point with entry `i` removed, and the recorded lower bound is the value of
objective `i` at the minimizer returned by the external optimizer. -/
def calculate_bounds (env : Env) (n_objectives : ℕ) (x0 epsilons : List ℚ) : List ℚ :=
  (List.range n_objectives).map fun i =>
    let eps_list := (epsilons.enum.filter (fun p => p.1 != i)).map Prod.snd
    let res := env.minimize_cons (ecm_scalarize env.objectives i)
      (evaluate_constraints env.objectives i eps_list env.constraints) x0
    (env.objectives res.x).getD i 0

/-- The "continue with the same preferences, no step back" branch of
`handle_request` (lines 474-507). -/
noncomputable def continue_branch (env : Env) (st1 : NState) :
    Except PyErr (NState × Option Request) :=
  let st2 := { st1 with _step_back := false,
                        _n_iterations_left := st1._n_iterations_left - 1,
                        _step_number := st1._step_number + 1 }
  let st3 := { st2 with
    _xs := st2._xs.set st2._step_number (st2._xs.getD (st2._step_number - 1) none),
    _fs := st2._fs.set st2._step_number (st2._fs.getD (st2._step_number - 1) none) }
  match st3._zs.getD (st3._step_number - 1) none, st3._fs.getD st3._step_number none with
  | some z_prev, some f_cur =>
    let st4 := { st3 with _zs := (st3._zs.set st3._step_number
        (some (calculate_iteration_point st3._n_iterations_left z_prev f_cur))) }
    let x0 := env.variable_upper_bounds.map (fun v => v / 2)
    let new_lower_bounds := calculate_bounds env st4._objective_names_len x0 z_prev
    let st5 := { st4 with
      _lower_bounds := st4._lower_bounds.set (st4._step_number + 1) (some new_lower_bounds),
      _upper_bounds := st4._upper_bounds.set (st4._step_number + 1)
        (st4._zs.getD st4._step_number none) }
    match st5._zs.getD st5._step_number none with
    | some z_cur =>
      let st6 := { st5 with _ds := (st5._ds.set st5._step_number
          (some (calculate_distance z_cur st5._nadir f_cur))) }
      Except.ok (st6, some (Request.intermediate st6._ideal st6._nadir st6._n_iterations
        (st6._lower_bounds.getD (st6._step_number + 1) none)
        (st6._upper_bounds.getD (st6._step_number + 1) none)
        (st6._ds.getD st6._step_number none)))
    | none => Except.error PyErr.typeError
  | _, _ => Except.error PyErr.typeError

/-- The "step back and take a short step" branch of `handle_request`
(lines 514-537): the iteration point becomes the unweighted halfway point
of the current and previous iteration points, nothing else is re-solved
through the reference solver. -/
noncomputable def short_step_branch (env : Env) (st1 : NState) :
    Except PyErr (NState × Option Request) :=
  let st2 := { st1 with _short_step := true }
  match st2._zs.getD st2._step_number none, st2._zs.getD (st2._step_number - 1) none with
  | some z_cur0, some z_prev =>
    let st3 := { st2 with _zs := (st2._zs.set st2._step_number
        (some (List.zipWith (fun a b => (1 / 2 : ℚ) * a + (1 / 2 : ℚ) * b) z_cur0 z_prev))) }
    let x0 := env.variable_upper_bounds.map (fun v => v / 2)
    let new_lower_bounds := calculate_bounds env st3._objective_names_len x0 z_prev
    let st4 := { st3 with
      _lower_bounds := st3._lower_bounds.set (st3._step_number + 1) (some new_lower_bounds),
      _upper_bounds := st3._upper_bounds.set (st3._step_number + 1)
        (st3._zs.getD st3._step_number none) }
    match st4._zs.getD st4._step_number none, st4._fs.getD st4._step_number none with
    | some z_cur, some f_cur =>
      let st5 := { st4 with _ds := (st4._ds.set st4._step_number
          (some (calculate_distance z_cur st4._nadir f_cur))) }
      Except.ok (st5, some (Request.intermediate st5._ideal st5._nadir st5._n_iterations
        (st5._lower_bounds.getD (st5._step_number + 1) none)
        (st5._upper_bounds.getD (st5._step_number + 1) none)
        (st5._ds.getD st5._step_number none)))
    | _, _ => Except.error PyErr.typeError
  | _, _ => Except.error PyErr.typeError

/-- The "step back and give new preferences" branch of `handle_request`
(lines 540-580): translate the new preference, re-run the reference solver
from the previous iteration point, then recompute iteration point, bounds
and distance.  The solver's `success` flag is never consulted. -/
noncomputable def new_preference_branch (env : Env) (st1 : NState) (resp : Response) :
    Except PyErr (NState × Option Request) :=
  match resp.preference_method, resp.preference_info with
  | some pm, some pinfo =>
    let st2 := { st1 with _preference_method := some pm, _preference_info := some pinfo }
    let pf := calculate_preference_factors pm pinfo st2._nadir st2._utopian
    let st3 := { st2 with _preference_factors := pf }
    match st3._zs.getD (st3._step_number - 1) none, pf with
    | some q, some w =>
      let st4 := { st3 with _q := some q }
      let x0 := env.variable_upper_bounds.map (fun v => v / 2)
      let result := solve_asf env q x0 w st4._nadir st4._utopian
      let st5 := { st4 with _xs := st4._xs.set st4._step_number (some result.x) }
      let f_new := env.objectives result.x
      let st6 := { st5 with _fs := st5._fs.set st5._step_number (some f_new) }
      let st7 := { st6 with _zs := (st6._zs.set st6._step_number
          (some (calculate_iteration_point st6._n_iterations_left q f_new))) }
      let new_lower_bounds := calculate_bounds env st7._objective_names_len x0 q
      let st8 := { st7 with
        _lower_bounds := st7._lower_bounds.set (st7._step_number + 1) (some new_lower_bounds),
        _upper_bounds := st7._upper_bounds.set (st7._step_number + 1)
          (st7._zs.getD st7._step_number none) }
      match st8._zs.getD st8._step_number none with
      | some z_cur =>
        let st9 := { st8 with _ds := (st8._ds.set st8._step_number
            (some (calculate_distance z_cur st8._nadir f_new))) }
        Except.ok (st9, some (Request.intermediate st9._ideal st9._nadir st9._n_iterations
          (st9._lower_bounds.getD (st9._step_number + 1) none)
          (st9._upper_bounds.getD (st9._step_number + 1) none)
          (st9._ds.getD st9._step_number none)))
      | none => Except.error PyErr.typeError
    | _, _ => Except.error PyErr.typeError
  | _, _ => Except.error PyErr.keyError

/-- `Nautilus.handle_request`: optional change of the iteration counters,
termination test, then dispatch on the `use_previous_preference` /
`step_back` / `short_step` flags.  The flag combinations covered by no
branch fall off the end of the Python function, returning `None`. -/
noncomputable def handle_request (env : Env) (st0 : NState) (resp : Response) :
    Except PyErr (NState × Option Request) :=
  let st :=
    match resp.n_iterations with
    | some k => { st0 with _n_iterations := k, _n_iterations_left := k }
    | none => st0
  if st._n_iterations_left ≤ 1 then
    let st' := { st with _n_iterations_left := 0 }
    Except.ok (st', some (NautilusStopRequest (st'._xs.getD st'._step_number none)
      (st'._fs.getD st'._step_number none)))
  else
    match resp.use_previous_preference, resp.step_back with
    | none, _ => Except.error PyErr.keyError
    | some _, none => Except.error PyErr.keyError
    | some upp, some sb =>
      if upp && !sb then
        continue_branch env st
      else if sb then
        let st' := { st with _step_back := true }
        match resp.short_step with
        | none => Except.error PyErr.keyError
        | some ss =>
          if ss then short_step_branch env st'
          else if !upp then new_preference_branch env st' resp
          else Except.ok (st', none)
      else
        Except.ok (st, none)

/-- `Nautilus.handle_initial_request`: allocate the `None`-padded history,
seed the iteration point with the nadir, translate the initial preference,
run the reference solver once and compute the first iteration point, bounds
and distance. -/
noncomputable def handle_initial_request (env : Env) (st0 : NState) (resp : Response) :
    Except PyErr (NState × Request) :=
  match resp.n_iterations with
  | none => Except.error PyErr.keyError
  | some n_it =>
    let n := n_it.toNat
    let st1 := { st0 with
      _n_iterations := n_it, _n_iterations_left := n_it,
      _xs := List.replicate (n + 1) none, _fs := List.replicate (n + 1) none,
      _ds := List.replicate (n + 1) none, _zs := List.replicate (n + 1) none,
      _lower_bounds := List.replicate (n + 1) none,
      _upper_bounds := List.replicate (n + 1) none }
    let st2 := { st1 with _zs := st1._zs.set (st1._step_number - 1) (some st1._nadir) }
    match resp.preference_method, resp.preference_info with
    | some pm, some pinfo =>
      let st3 := { st2 with _preference_method := some pm, _preference_info := some pinfo }
      let pf := calculate_preference_factors pm pinfo st3._nadir st3._utopian
      let st4 := { st3 with _preference_factors := pf }
      match st4._zs.getD (st4._step_number - 1) none, pf with
      | some q, some w =>
        let st5 := { st4 with _q := some q }
        let x0 := env.variable_upper_bounds.map (fun v => v / 2)
        let result := solve_asf env q x0 w st5._nadir st5._utopian
        let st6 := { st5 with _xs := st5._xs.set st5._step_number (some result.x) }
        let f_new := env.objectives result.x
        let st7 := { st6 with _fs := st6._fs.set st6._step_number (some f_new) }
        let st8 := { st7 with _zs := (st7._zs.set st7._step_number
            (some (calculate_iteration_point st7._n_iterations_left q f_new))) }
        let new_lower_bounds := calculate_bounds env st8._objective_names_len x0 q
        let st9 := { st8 with
          _lower_bounds := st8._lower_bounds.set (st8._step_number + 1) (some new_lower_bounds),
          _upper_bounds := st8._upper_bounds.set (st8._step_number + 1)
            (st8._zs.getD st8._step_number none) }
        match st9._zs.getD st9._step_number none with
        | some z_cur =>
          let st10 := { st9 with _ds := (st9._ds.set st9._step_number
              (some (calculate_distance z_cur st9._nadir f_new))) }
          Except.ok (st10, Request.intermediate st10._ideal st10._nadir st10._n_iterations
            (st10._lower_bounds.getD (st10._step_number + 1) none)
            (st10._upper_bounds.getD (st10._step_number + 1) none)
            (st10._ds.getD st10._step_number none))
        | none => Except.error PyErr.typeError
      | _, _ => Except.error PyErr.typeError
    | _, _ => Except.error PyErr.keyError

/-- `Nautilus.start`. -/
def start (st : NState) : Request := Request.initial st._ideal st._nadir

/-- `Nautilus.iterate`: dispatch on the type of the request; a stop request
is returned as-is, the session state untouched. -/
noncomputable def iterate (env : Env) (st : NState) (req : Request) (resp : Response) :
    Except PyErr (NState × Option Request) :=
  match req with
  | Request.initial _ _ =>
    match handle_initial_request env st resp with
    | Except.ok p => Except.ok (p.1, some p.2)
    | Except.error e => Except.error e
  | Request.intermediate _ _ _ _ _ _ => handle_request env st resp
  | Request.stop _ _ _ => Except.ok (st, some req)

/-! ### Result projections used to state concrete facts about handler runs -/

/-- The `_xs` history entry at index `i` of the state a handler run produced,
or `none` if the run raised. -/
def result_xs_entry (r : Except PyErr (NState × Option Request)) (i : ℕ) :
    Option (Option (List ℚ)) :=
  match r with
  | Except.ok p => some (p.1._xs.getD i none)
  | Except.error _ => none

/-- The `_fs` history entry at index `i` of the state a handler run produced,
or `none` if the run raised. -/
def result_fs_entry (r : Except PyErr (NState × Option Request)) (i : ℕ) :
    Option (Option (List ℚ)) :=
  match r with
  | Except.ok p => some (p.1._fs.getD i none)
  | Except.error _ => none

/-- `true` exactly when a handler run completed normally and handed the
decision maker an ordinary intermediate iteration request. -/
def returns_intermediate : Except PyErr (NState × Option Request) → Bool
  | Except.ok (_, some (Request.intermediate _ _ _ _ _ _)) => true
  | _ => false

/-- `true` exactly when a handler run completed normally with a terminal
stop request. -/
def returns_stop : Except PyErr (NState × Option Request) → Bool
  | Except.ok (_, some (Request.stop _ _ _)) => true
  | _ => false

/-! ### Concrete fixtures for witnesses and counterexamples -/

/-- A benign two-objective environment: identity objectives, an (empty)
original-constraint evaluator, and an always-successful optimizer that
returns its starting point. -/
def env_ok : Env where
  objectives := fun x => x
  constraints := some (fun _ => [])
  variable_upper_bounds := [2, 2]
  minimize_asf := fun _ x0 _ _ _ => { x := x0, fun_value := 0, success := true }
  minimize_cons := fun _ _ x0 => { x := x0, fun_value := 0, success := true }

/-- Same environment with a different reference-point solver, used to show
runs that never consult the reference solver. -/
def env_alt : Env :=
  { env_ok with minimize_asf := fun _ _ _ _ _ => { x := [7, 7], fun_value := 3, success := true } }

/-- An environment whose reference-point solver reports failure
(`success = false`) while still handing back a candidate point `[9, 9]`. -/
def env_fail : Env :=
  { env_ok with minimize_asf := fun _ _ _ _ _ => { x := [9, 9], fun_value := 0, success := false } }

/-- A mid-session state: step number 1, five iterations left, the step-1
solution `[1, 1]` committed, iteration points at steps 0 and 1 set. -/
def st_mid : NState where
  _ideal := [0, 0]
  _nadir := [10, 10]
  _utopian := [0, 0]
  _xs := [none, some [1, 1], none, none, none, none]
  _fs := [none, some [1, 1], none, none, none, none]
  _zs := [some [10, 10], some [8, 8], none, none, none, none]
  _ds := [none, none, none, none, none, none]
  _lower_bounds := [none, none, none, none, none, none]
  _upper_bounds := [none, none, none, none, none, none]
  _step_number := 1
  _n_iterations := 5
  _n_iterations_left := 5
  _preference_method := some 1
  _preference_info := some [1, 2]
  _preference_factors := some [1 / 10, 1 / 20]
  _q := some [10, 10]
  _step_back := false
  _short_step := false
  _objective_names_len := 2

/-- The same session state with only one iteration left. -/
def st_last : NState := { st_mid with _n_iterations_left := 1 }

/-- A step-back, new-preference response (rank mode). -/
def resp_new_pref : Response where
  step_back := some true
  short_step := some false
  use_previous_preference := some false
  preference_method := some 1
  preference_info := some [1, 2]

/-- A step-back, short-step response. -/
def resp_short_step : Response where
  step_back := some true
  short_step := some true
  use_previous_preference := some true

/-- The unhandled flag combination: step back, no short step, but reuse the
previous preferences. -/
def resp_fall_through : Response where
  step_back := some true
  short_step := some false
  use_previous_preference := some true

/-- A continue response that also changes the remaining iteration count. -/
def resp_change_iterations : Response where
  n_iterations := some 8
  step_back := some false
  short_step := some false
  use_previous_preference := some true

/-- A plain continue response. -/
def resp_continue : Response where
  step_back := some false
  short_step := some false
  use_previous_preference := some true

/-- A rank-mode preference containing the rank `0`, which is outside
`[1, n_objectives]` although its maximum is not. -/
def resp_rank_zero : Response where
  use_previous_preference := some false
  preference_method := some 1
  preference_info := some [0, 2]

/-- A percentage-mode preference summing to `99`. -/
def resp_percent_99 : Response where
  use_previous_preference := some false
  preference_method := some 2
  preference_info := some [49, 50]

/-- A percentage-mode preference `[0, 100]`: non-negative, summing to `100`,
but with a zero entry. -/
def resp_percent_zero : Response where
  use_previous_preference := some false
  preference_method := some 2
  preference_info := some [0, 100]

/-! ### List-level helper lemmas -/

theorem getq_zipWith {f : ℚ → ℚ → ℚ} {l1 l2 : List ℚ} {i : ℕ} {a b : ℚ}
    (h1 : l1.get? i = some a) (h2 : l2.get? i = some b) :
    (List.zipWith f l1 l2).get? i = some (f a b) := by
  rw [List.get?_zipWith', h1, h2]
  rfl

theorem zipWith3_get?_some {f : ℚ → ℚ → ℚ → ℚ} :
    ∀ {l1 l2 l3 : List ℚ} {i : ℕ} {w : ℚ},
      (List.zipWith3 f l1 l2 l3).get? i = some w →
      ∃ a b c, l1.get? i = some a ∧ l2.get? i = some b ∧ l3.get? i = some c ∧ w = f a b c
  | [], _, _, _, _, h => by simp [List.zipWith3] at h
  | _ :: _, [], _, _, _, h => by simp [List.zipWith3] at h
  | _ :: _, _ :: _, [], _, _, h => by simp [List.zipWith3] at h
  | a :: _, b :: _, c :: _, 0, w, h => by
    refine ⟨a, b, c, rfl, rfl, rfl, ?_⟩
    simpa [List.zipWith3] using h.symm
  | _ :: l1, _ :: l2, _ :: l3, i + 1, w, h => by
    simp only [List.zipWith3, List.get?_cons_succ] at h ⊢
    exact zipWith3_get?_some h

theorem zipWith3_get?_of_some {f : ℚ → ℚ → ℚ → ℚ} :
    ∀ {l1 l2 l3 : List ℚ} {i : ℕ} {a b c : ℚ},
      l1.get? i = some a → l2.get? i = some b → l3.get? i = some c →
      (List.zipWith3 f l1 l2 l3).get? i = some (f a b c)
  | [], _, _, _, _, _, _, h1, _, _ => by simp at h1
  | _ :: _, [], _, _, _, _, _, _, h2, _ => by simp at h2
  | _ :: _, _ :: _, [], _, _, _, _, _, _, h3 => by simp at h3
  | x :: _, y :: _, z :: _, 0, a, b, c, h1, h2, h3 => by
    simp only [List.get?_cons_zero, Option.some.injEq] at h1 h2 h3
    subst h1; subst h2; subst h3
    rfl
  | _ :: l1, _ :: l2, _ :: l3, i + 1, a, b, c, h1, h2, h3 => by
    simp only [List.get?_cons_succ] at h1 h2 h3
    simpa [List.zipWith3] using zipWith3_get?_of_some h1 h2 h3

theorem enumFrom_filter_ne_map (i : ℕ) :
    ∀ (l : List ℚ) (k : ℕ),
      ((List.enumFrom k l).filter (fun p => p.1 != i)).map Prod.snd
        = if k ≤ i then l.eraseIdx (i - k) else l
  | [], k => by simp
  | a :: as, k => by
    simp only [List.enumFrom, List.filter_cons]
    by_cases hk : k = i
    · rw [hk]
      simp only [bne_self_eq_false, Bool.false_eq_true, if_false]
      rw [enumFrom_filter_ne_map i as (i + 1), if_neg (by omega), if_pos (le_refl i),
        Nat.sub_self, List.eraseIdx_cons_zero]
    · have hb : (k != i) = true := by simpa using hk
      rw [hb]
      simp only [if_true, List.map_cons]
      rw [enumFrom_filter_ne_map i as (k + 1)]
      by_cases hki : k ≤ i
      · have hk1 : k + 1 ≤ i := by omega
        rw [if_pos hk1, if_pos hki]
        have hik : i - k = (i - (k + 1)) + 1 := by omega
        rw [hik, List.eraseIdx_cons_succ]
      · rw [if_neg (by omega), if_neg hki]

theorem enum_filter_ne_map (i : ℕ) (l : List ℚ) :
    (l.enum.filter (fun p => p.1 != i)).map Prod.snd = l.eraseIdx i := by
  have h := enumFrom_filter_ne_map i l 0
  rw [if_pos (Nat.zero_le i), Nat.sub_zero] at h
  exact h

theorem zip_map_neg_sub :
    ∀ (l1 l2 : List ℚ),
      (l1.zip l2).map (fun p => -(p.1 - p.2)) = List.zipWith (fun fj ej => -(fj - ej)) l1 l2
  | [], _ => by simp
  | _ :: _, [] => by simp
  | a :: as, b :: bs => by
    simp only [List.zip_cons_cons, List.map_cons, List.zipWith_cons_cons]
    rw [zip_map_neg_sub as bs]

theorem sqnorm_nonneg (v : List ℚ) : 0 ≤ sqnorm v := by
  induction v with
  | nil => simp [sqnorm]
  | cons a as ih =>
    simp only [sqnorm, List.map_cons, List.sum_cons] at ih ⊢
    nlinarith [mul_self_nonneg a]

theorem sqnorm_map_mul (t : ℚ) (v : List ℚ) :
    sqnorm (v.map fun x => t * x) = t ^ 2 * sqnorm v := by
  induction v with
  | nil => simp [sqnorm]
  | cons a as ih =>
    simp only [sqnorm, List.map_cons, List.sum_cons] at ih ⊢
    rw [ih]
    ring

theorem sqnorm_vsub_self (v : List ℚ) : sqnorm (vsub v v) = 0 := by
  induction v with
  | nil => simp [sqnorm, vsub]
  | cons a as ih =>
    simp only [sqnorm, vsub, List.zipWith_cons_cons, List.map_cons, List.sum_cons] at ih ⊢
    simp [ih]

theorem vsub_affine (t : ℚ) :
    ∀ (n f : List ℚ),
      vsub (List.zipWith (fun ni fi => ni + t * (fi - ni)) n f) n
        = (vsub f n).map fun x => t * x
  | [], _ => by simp [vsub]
  | _ :: _, [] => by simp [vsub]
  | a :: as, b :: bs => by
    simp only [vsub, List.zipWith_cons_cons, List.map_cons]
    rw [show a + t * (b - a) - a = t * (b - a) by ring]
    have h := vsub_affine t as bs
    simp only [vsub] at h
    rw [h]

theorem calc_itn_one : ∀ (z f : List ℚ), z.length = f.length →
    calculate_iteration_point 1 z f = f
  | [], [], _ => rfl
  | [], _ :: _, h => by simp at h
  | _ :: _, [], h => by simp at h
  | a :: as, b :: bs, h => by
    simp only [List.length_cons, Nat.add_right_cancel_iff] at h
    simp only [calculate_iteration_point, List.zipWith_cons_cons]
    have hh := calc_itn_one as bs h
    simp only [calculate_iteration_point] at hh
    rw [hh]
    norm_num

theorem length_calculate_iteration_point (itn : ℤ) (z f : List ℚ) :
    (calculate_iteration_point itn z f).length = min z.length f.length := by
  simp [calculate_iteration_point]

theorem iterate_constant_eq (f : List ℚ) :
    ∀ (n : ℕ) (z : List ℚ), 1 ≤ n → z.length = f.length → iterate_constant n z f = f := by
  intro n
  induction n with
  | zero => omega
  | succ m ih =>
    intro z _ hlen
    rw [iterate_constant]
    rcases Nat.eq_zero_or_pos m with hm | hm
    · subst hm
      rw [iterate_constant]
      simpa using calc_itn_one z f hlen
    · apply ih _ hm
      rw [length_calculate_iteration_point, hlen, min_self]

theorem getD_some_lt {α : Type} {l : List (Option α)} {i : ℕ} {a : α}
    (h : l.getD i none = some a) : i < l.length := by
  by_contra hlt
  rw [List.getD_eq_getElem?_getD, List.getElem?_eq_none (by omega)] at h
  simp at h

theorem getD_set_self {α : Type} {l : List (Option α)} {i : ℕ} (a : Option α)
    (h : i < l.length) : (l.set i a).getD i none = a := by
  rw [List.getD_eq_getElem?_getD, List.getElem?_set_self h]
  rfl

theorem getq_some_lt {α : Type} {l : List α} {i : ℕ} {a : α}
    (h : l.get? i = some a) : i < l.length := by
  by_contra hlt
  rw [List.get?_eq_none.mpr (by omega)] at h
  simp at h

theorem getq_eq_getD {l : List ℚ} {i : ℕ} {a : ℚ} (h : l.get? i = some a) :
    l.getD i 0 = a := by
  rw [List.getD_eq_get?, h]
  rfl

theorem getq_of_lt {l : List ℚ} {i : ℕ} (h : i < l.length) :
    l.get? i = some (l.getD i 0) := by
  rw [List.getD_eq_get?]
  cases hq : l.get? i with
  | none => rw [List.get?_eq_none] at hq; omega
  | some a => rfl

/-! ### Claim theorems -/

/-- C1: for `itn ≥ 1` and equal-length vectors, `calculate_iteration_point`
returns `((itn - 1) / itn) * z_prev + (1 / itn) * f_curr` element-wise; and
iterating the update with the counter running from `n` down to `1` with a
constant current objective vector `f*` ends exactly at `f*`. -/
theorem iteration_point_formula_and_fixed_point :
    (∀ (itn : ℤ), 1 ≤ itn → ∀ (z f : List ℚ), z.length = f.length →
       ∀ i, i < z.length →
         (calculate_iteration_point itn z f).get? i
           = some ((((itn : ℚ) - 1) / (itn : ℚ)) * z.getD i 0 + (1 / (itn : ℚ)) * f.getD i 0))
  ∧ (∀ (n : ℕ), 1 ≤ n → ∀ (z f : List ℚ), z.length = f.length →
       iterate_constant n z f = f) := by
  constructor
  · intro itn _ z f hlen i hi
    exact getq_zipWith (getq_of_lt hi) (getq_of_lt (by omega))
  · intro n hn z f hlen
    exact iterate_constant_eq f n z hn hlen

/-- Witness for C1 at `itn = 3`, `z = [3, 9]`, `f = [0, 0]` and at a
two-step constant iteration. -/
theorem iteration_point_formula_and_fixed_point_witness :
    (calculate_iteration_point 3 [3, 9] [0, 0]).get? 0
      = some (((((3 : ℤ) : ℚ) - 1) / ((3 : ℤ) : ℚ)) * List.getD [3, 9] 0 0
          + (1 / ((3 : ℤ) : ℚ)) * List.getD [0, 0] 0 0)
  ∧ iterate_constant 2 [3, 9] [5, 5] = [5, 5] :=
  ⟨iteration_point_formula_and_fixed_point.1 3 (by norm_num) [3, 9] [0, 0] rfl 0 (by norm_num),
   iteration_point_formula_and_fixed_point.2 2 (by norm_num) [3, 9] [5, 5] rfl⟩

/-- C2: for each objective `i < n`, the bounds computation hands the external
optimizer the objective `f_i` together with a constraint evaluator whose
value is the original constraints concatenated with `-(f_j(x) - eps_j)` for
`j ≠ i` (satisfied when `≥ 0`), and records `f_i` at the returned minimizer
as the new lower bound; an epsilon vector whose length is not `n - 1` makes
the constraint evaluator raise `ECMError` instead of returning a value. -/
theorem epsilon_constraint_bounds (env : Env) (n : ℕ) (x0 z : List ℚ)
    (c : List ℚ → List ℚ) (hc : env.constraints = some c)
    (hz : z.length = n) (i : ℕ) (hi : i < n) :
    ((z.enum.filter (fun p => p.1 != i)).map Prod.snd).length = n - 1
  ∧ (∀ x, (env.objectives x).length = n →
      evaluate_constraints env.objectives i
          ((z.enum.filter (fun p => p.1 != i)).map Prod.snd) env.constraints x
        = Except.ok (c x ++
            List.zipWith (fun fj ej => -(fj - ej))
              ((env.objectives x).eraseIdx i) (z.eraseIdx i)))
  ∧ (calculate_bounds env n x0 z).get? i
      = some ((env.objectives (env.minimize_cons (ecm_scalarize env.objectives i)
          (evaluate_constraints env.objectives i
            ((z.enum.filter (fun p => p.1 != i)).map Prod.snd) env.constraints) x0).x).getD i 0)
  ∧ (∀ eps : List ℚ, eps.length ≠ n - 1 → ∀ x, (env.objectives x).length = n →
      evaluate_constraints env.objectives i eps env.constraints x
        = Except.error PyErr.ecmError) := by
  have hlen_eps : ((z.enum.filter (fun p => p.1 != i)).map Prod.snd).length = n - 1 := by
    rw [enum_filter_ne_map, List.length_eraseIdx_of_lt (by omega), hz]
  refine ⟨hlen_eps, ?_, ?_, ?_⟩
  · intro x hx
    have hfx : ((env.objectives x).enum.filter (fun p => p.1 != i)).map Prod.snd
        = (env.objectives x).eraseIdx i := enum_filter_ne_map i (env.objectives x)
    unfold evaluate_constraints
    dsimp only
    rw [hfx]
    rw [if_neg (by
      rw [List.length_eraseIdx_of_lt (by omega), hx, hlen_eps]
      omega)]
    rw [enum_filter_ne_map, zip_map_neg_sub, hc]
  · unfold calculate_bounds
    rw [List.get?_map, List.get?_range hi]
    rfl
  · intro eps hne x hx
    unfold evaluate_constraints
    dsimp only
    rw [enum_filter_ne_map]
    rw [if_pos (by
      rw [List.length_eraseIdx_of_lt (by omega), hx]
      omega)]

/-- Witness for C2 on the concrete two-objective environment. -/
theorem epsilon_constraint_bounds_witness :
    evaluate_constraints env_ok.objectives 0 [1, 2, 3] env_ok.constraints [5, 5]
      = Except.error PyErr.ecmError
  ∧ (([8, 8] : List ℚ).enum.filter (fun p => p.1 != 0)).map Prod.snd = [8] :=
  ⟨(epsilon_constraint_bounds env_ok 2 [1, 1] [8, 8] (fun _ => []) rfl rfl 0
      (by norm_num)).2.2.2 [1, 2, 3] (by norm_num) [5, 5] rfl,
   by decide⟩

/-- C3 counterexample: the percentage preference `[0, 100]` passes
validation (it is non-negative and sums to 100), yet its first preference
factor is `1 / (0 * (nadir_0 - utopian_0))` — a division by zero, which the
exact embedding evaluates to `0`, not a strictly positive finite value (the
numpy code produces `inf`). -/
theorem preference_factors_counterexample :
    validate_preferences 2 resp_percent_zero = Except.ok ()
  ∧ calculate_preference_factors 2 [0, 100] [1, 1] [0, 0] = some [0, 1]
  ∧ ¬ (0 : ℚ) > 0 := by
  refine ⟨?_, ?_, by norm_num⟩
  · norm_num [validate_preferences, resp_percent_zero, List.sum_cons, List.sum_nil]
  · norm_num [calculate_preference_factors, List.zipWith3]

/-- C3 (amended): when additionally every rank is at least `1`
(respectively every percentage entry is strictly positive) and
`nadir_i > utopian_i` holds for all entries, each preference factor equals
`1 / (p_i * (nadir_i - utopian_i))` and is strictly positive. -/
theorem preference_factors_positive (pm : ℕ) (info nadir utopian w : List ℚ)
    (hw : calculate_preference_factors pm info nadir utopian = some w)
    (hnu : ∀ j, j < nadir.length → j < utopian.length →
      utopian.getD j 0 < nadir.getD j 0)
    (hpos : (pm = 1 ∧ ∀ j, j < info.length → 1 ≤ info.getD j 0)
          ∨ (pm = 2 ∧ ∀ j, j < info.length → 0 < info.getD j 0)) :
    ∀ i wi, w.get? i = some wi →
      0 < wi ∧
      wi = 1 / ((if pm = 1 then info.getD i 0 else info.getD i 0 / 100)
                 * (nadir.getD i 0 - utopian.getD i 0)) := by
  intro i wi hwi
  rcases hpos with ⟨hpm, hp⟩ | ⟨hpm, hp⟩
  · subst hpm
    rw [calculate_preference_factors, if_pos rfl] at hw
    obtain rfl : List.zipWith3 (fun r_i n_i u_i => 1 / (r_i * (n_i - u_i)))
        info nadir utopian = w := by injection hw
    obtain ⟨a, b, cc, ha, hb, hcc, rfl⟩ := zipWith3_get?_some hwi
    have hia := getq_eq_getD ha
    have hib := getq_eq_getD hb
    have hic := getq_eq_getD hcc
    have h1 : 1 ≤ a := hia ▸ hp i (getq_some_lt ha)
    have h2 : cc < b := by
      rw [← hib, ← hic]
      exact hnu i (getq_some_lt hb) (getq_some_lt hcc)
    constructor
    · have hpos : 0 < a * (b - cc) := by nlinarith
      exact one_div_pos.mpr hpos
    · rw [if_pos rfl, hia, hib, hic]
  · subst hpm
    rw [calculate_preference_factors] at hw
    rw [if_neg (by norm_num), if_pos rfl] at hw
    obtain rfl : List.zipWith3 (fun d_i n_i u_i => 1 / (d_i * (n_i - u_i)))
        (info.map (fun p => p / 100)) nadir utopian = w := by injection hw
    obtain ⟨a, b, cc, ha, hb, hcc, rfl⟩ := zipWith3_get?_some hwi
    rw [List.get?_map] at ha
    cases hio : info.get? i with
    | none => rw [hio] at ha; simp at ha
    | some a0 =>
      rw [hio] at ha
      simp only [Option.map_some', Option.some.injEq] at ha
      have hia := getq_eq_getD hio
      have hib := getq_eq_getD hb
      have hic := getq_eq_getD hcc
      have h1 : 0 < a0 := hia ▸ hp i (getq_some_lt hio)
      have h2 : cc < b := by
        rw [← hib, ← hic]
        exact hnu i (getq_some_lt hb) (getq_some_lt hcc)
      constructor
      · rw [← ha]
        have hpos : 0 < (a0 / 100) * (b - cc) :=
          mul_pos (div_pos h1 (by norm_num)) (by linarith)
        exact one_div_pos.mpr hpos
      · rw [if_neg (by norm_num), hia, hib, hic, ← ha]

/-- Witness for C3 (amended) on the rank preference `[1, 2]` with
`nadir = [10, 10]`, `utopian = [0, 0]`. -/
theorem preference_factors_positive_witness :
    0 < (1 / 10 : ℚ) ∧
    (1 / 10 : ℚ) = 1 / ((if (1 : ℕ) = 1 then List.getD [1, 2] 0 0
        else List.getD [1, 2] 0 0 / 100)
      * (List.getD [10, 10] 0 0 - List.getD [0, 0] 0 0)) :=
  preference_factors_positive 1 [1, 2] [10, 10] [0, 0] [1 / 10, 1 / 20]
    (by norm_num [calculate_preference_factors, List.zipWith3])
    (by intro j hj _
        simp only [List.length_cons, List.length_nil] at hj
        interval_cases j <;> norm_num)
    (Or.inl ⟨rfl, by
      intro j hj
      simp only [List.length_cons, List.length_nil] at hj
      interval_cases j <;> norm_num⟩)
    0 (1 / 10) rfl

/-- C4 counterexample: the rank vector `[0, 2]` contains the rank `0`,
which is outside `[1, 2]`, yet setting it as the response of an
intermediate request succeeds — the validator only checks the maximum
rank.  (Over-long preference vectors similarly pass, since only
`len < n_objectives` is checked.) -/
theorem response_validation_gap :
    resp_rank_zero.preference_info = some [0, 2]
  ∧ ¬ (1 ≤ (0 : ℚ) ∧ (0 : ℚ) ≤ 2)
  ∧ set_response 2 resp_rank_zero = Except.ok resp_rank_zero := by
  refine ⟨rfl, by norm_num, ?_⟩
  norm_num [set_response, validate_response, validate_preferences, resp_rank_zero, listMax]

/-- C4 (amended): for an intermediate response that does provide new
preferences (`use_previous_preference = false`), the setter raises a
`NautilusException` before storing anything whenever the preference vector
is shorter than the number of objectives, the maximum rank lies outside
`[1, n_objectives]` in rank mode, or the percentages do not sum to 100;
the setter itself performs no other action than storing the validated
response, so the session state is untouched in every case. -/
theorem response_validation_rejects (n : ℕ) (resp : Response) (info : List ℚ)
    (hu : resp.use_previous_preference = some false)
    (hi : resp.preference_info = some info) :
    (∀ pm, resp.preference_method = some pm → (pm = 1 ∨ pm = 2) → info.length < n →
        ∃ k, set_response n resp = Except.error (PyErr.nautilus k))
  ∧ (resp.preference_method = some 1 →
        ¬ (1 ≤ listMax info ∧ listMax info ≤ (n : ℚ)) →
        ∃ k, set_response n resp = Except.error (PyErr.nautilus k))
  ∧ (resp.preference_method = some 2 → info.sum ≠ 100 →
        ∃ k, set_response n resp = Except.error (PyErr.nautilus k)) := by
  have herr : ∀ k, validate_preferences n resp = Except.error (PyErr.nautilus k) →
      set_response n resp = Except.error (PyErr.nautilus k) := by
    intro k hk
    unfold set_response validate_response
    rw [hu, hk]
    rfl
  refine ⟨?_, ?_, ?_⟩
  · intro pm hpm hpm12 hlen
    rcases hpm12 with h1 | h2
    · subst h1
      refine ⟨NautilusKind.rankLengthMismatch, herr _ ?_⟩
      unfold validate_preferences
      rw [hpm, hi]
      dsimp only
      rw [if_neg (by norm_num), if_pos rfl, if_pos hlen]
    · subst h2
      refine ⟨NautilusKind.percLengthMismatch, herr _ ?_⟩
      unfold validate_preferences
      rw [hpm, hi]
      dsimp only
      rw [if_neg (by norm_num), if_neg (by norm_num), if_pos hlen]
  · intro hpm hmax
    by_cases hlen : info.length < n
    · refine ⟨NautilusKind.rankLengthMismatch, herr _ ?_⟩
      unfold validate_preferences
      rw [hpm, hi]
      dsimp only
      rw [if_neg (by norm_num), if_pos rfl, if_pos hlen]
    · refine ⟨NautilusKind.rankOutOfRange, herr _ ?_⟩
      unfold validate_preferences
      rw [hpm, hi]
      dsimp only
      rw [if_neg (by norm_num), if_pos rfl, if_neg hlen, if_pos hmax]
  · intro hpm hsum
    by_cases hlen : info.length < n
    · refine ⟨NautilusKind.percLengthMismatch, herr _ ?_⟩
      unfold validate_preferences
      rw [hpm, hi]
      dsimp only
      rw [if_neg (by norm_num), if_neg (by norm_num), if_pos hlen]
    · refine ⟨NautilusKind.percSumNot100, herr _ ?_⟩
      unfold validate_preferences
      rw [hpm, hi]
      dsimp only
      rw [if_neg (by norm_num), if_neg (by norm_num), if_neg hlen, if_pos hsum]

/-- Witness for C4 (amended): the percentage preference `[49, 50]`, which
sums to 99, is rejected by the response setter. -/
theorem response_validation_rejects_witness :
    ∃ k, set_response 2 resp_percent_99 = Except.error (PyErr.nautilus k) :=
  (response_validation_rejects 2 resp_percent_99 [49, 50] rfl rfl).2.2 rfl
    (by norm_num)

/-- C5: evaluation of `handle_request` on a step-back/new-preference turn in
which the external reference solver reports `success = false`.  The handler
never consults the flag: it overwrites the committed history slots
(`_xs[1]`, `_fs[1]`) with the failed solver's point and returns an ordinary
intermediate request instead of reporting the failure. -/
theorem solver_failure_still_commits :
    (env_fail.minimize_asf [10, 10] [1, 1] [1 / 10, 1 / 20] [10, 10] [0, 0]).success = false
  ∧ st_mid._xs.getD 1 none = some [1, 1]
  ∧ result_xs_entry (handle_request env_fail st_mid resp_new_pref) 1 = some (some [9, 9])
  ∧ result_fs_entry (handle_request env_fail st_mid resp_new_pref) 1 = some (some [9, 9])
  ∧ returns_intermediate (handle_request env_fail st_mid resp_new_pref) = true :=
  ⟨rfl, rfl, rfl, rfl, rfl⟩

/-- C6 counterexample: with `f_current = nadir` the distance computation is
an unguarded division by zero; no finite value — in particular not `100` —
is produced. -/
theorem distance_degenerate_counterexample :
    calculate_distance [1, 0] [0, 0] [0, 0] ≠ some (100 : ℝ) := by
  unfold calculate_distance
  rw [if_pos (by norm_num [sqnorm, vsub])]
  simp

/-- C6 (amended): the distance is
`100 * ||z_curr - nadir|| / ||f_curr - nadir||` and lies in `[0, 100]`
whenever `z_curr` lies on the segment between `nadir` and `f_curr`; but the
degenerate case `f_curr = nadir` is NOT guarded — the division by zero
produces no finite value at all (numpy `inf`/`nan`) rather than `100`. -/
theorem distance_formula_range_and_degenerate :
    (∀ z nadir f, sqnorm (vsub f nadir) ≠ 0 →
        calculate_distance z nadir f
          = some (enorm (vsub z nadir) / enorm (vsub f nadir) * 100))
  ∧ (∀ (t : ℚ) (nadir f z : List ℚ), 0 ≤ t → t ≤ 1 →
        z = List.zipWith (fun ni fi => ni + t * (fi - ni)) nadir f →
        ∀ d : ℝ, calculate_distance z nadir f = some d → 0 ≤ d ∧ d ≤ 100)
  ∧ (∀ z f, calculate_distance z f f = none) := by
  refine ⟨?_, ?_, ?_⟩
  · intro z nadir f h
    unfold calculate_distance
    rw [if_neg h]
  · intro t nadir f z ht0 ht1 hz d hd
    unfold calculate_distance at hd
    by_cases hden : sqnorm (vsub f nadir) = 0
    · rw [if_pos hden] at hd
      exact absurd hd (by simp)
    · rw [if_neg hden] at hd
      have hsub : vsub z nadir = (vsub f nadir).map fun x => t * x := by
        rw [hz]
        exact vsub_affine t nadir f
      have hs_pos : 0 < sqnorm (vsub f nadir) :=
        lt_of_le_of_ne (sqnorm_nonneg _) (Ne.symm hden)
      have hE_pos : 0 < enorm (vsub f nadir) := by
        unfold enorm
        apply Real.sqrt_pos.mpr
        exact_mod_cast hs_pos
      have hEz : enorm (vsub z nadir) = (t : ℝ) * enorm (vsub f nadir) := by
        unfold enorm
        rw [hsub, sqnorm_map_mul]
        push_cast
        rw [Real.sqrt_mul (by positivity), Real.sqrt_sq (by exact_mod_cast ht0)]
      have hsome : enorm (vsub z nadir) / enorm (vsub f nadir) * 100 = d := by
        simpa using hd
      have hd' : d = (t : ℝ) * 100 := by
        rw [← hsome, hEz, mul_div_assoc, div_self (ne_of_gt hE_pos)]
        ring
      constructor
      · rw [hd']
        positivity
      · rw [hd']
        have htr : (t : ℝ) ≤ 1 := by exact_mod_cast ht1
        nlinarith
  · intro z f
    unfold calculate_distance
    rw [if_pos (sqnorm_vsub_self f)]

/-- Witness for C6 (amended): the formula at a one-dimensional example and
the unguarded degenerate case. -/
theorem distance_formula_witness :
    calculate_distance [3] [0] [2]
      = some (enorm (vsub [3] [0]) / enorm (vsub [2] [0]) * 100)
  ∧ calculate_distance [1, 2] [3, 4] [3, 4] = none :=
  ⟨distance_formula_range_and_degenerate.1 [3] [0] [2] (by norm_num [sqnorm, vsub]),
   distance_formula_range_and_degenerate.2.2 [1, 2] [3, 4]⟩

/-- On a step-back/short-step turn (counters already updated, termination
test already failed), `handle_request` runs exactly the short-step branch
with the `_step_back` flag set. -/
theorem handle_request_short_step_dispatch (env : Env) (st : NState) (resp : Response)
    (upp : Bool)
    (h1 : resp.step_back = some true) (h2 : resp.short_step = some true)
    (h3 : resp.use_previous_preference = some upp) (h4 : resp.n_iterations = none)
    (h5 : ¬ st._n_iterations_left ≤ 1) :
    handle_request env st resp = short_step_branch env { st with _step_back := true } := by
  obtain ⟨ni, pm, pinfo, sb, ss, up⟩ := resp
  dsimp only at h1 h2 h3 h4
  subst h1
  subst h2
  subst h3
  subst h4
  unfold handle_request
  dsimp only
  rw [if_neg h5]
  cases upp <;> rfl

/-- What the short-step branch does to the navigation state: the remaining
iteration count and the step number are untouched and the iteration point at
the current step becomes the unweighted halfway point. -/
theorem short_step_branch_spec (env : Env) (st : NState) {st' : NState} {r : Option Request}
    {z_cur z_prev : List ℚ}
    (hz1 : st._zs.getD st._step_number none = some z_cur)
    (hz2 : st._zs.getD (st._step_number - 1) none = some z_prev)
    (h : short_step_branch env st = Except.ok (st', r)) :
    st'._n_iterations_left = st._n_iterations_left
  ∧ st'._step_number = st._step_number
  ∧ st'._zs.getD st._step_number none
      = some (List.zipWith (fun a b => (1 / 2 : ℚ) * a + (1 / 2 : ℚ) * b) z_cur z_prev) := by
  have hlen : st._step_number < st._zs.length := getD_some_lt hz1
  unfold short_step_branch at h
  dsimp only at h
  rw [hz1, hz2] at h
  dsimp only at h
  rw [getD_set_self _ hlen] at h
  cases hf : st._fs.getD st._step_number none with
  | none =>
    rw [hf] at h
    exact absurd h (by simp)
  | some f_cur =>
    rw [hf] at h
    dsimp only at h
    rw [Except.ok.injEq, Prod.mk.injEq] at h
    obtain ⟨hst, -⟩ := h
    subst hst
    refine ⟨rfl, rfl, ?_⟩
    exact getD_set_self _ hlen

/-- The short-step branch never consults the reference solver: its result is
independent of the `minimize_asf` entry point of the environment. -/
theorem short_step_branch_asf_irrel (env env' : Env) (st : NState) :
    short_step_branch { env with minimize_asf := env'.minimize_asf } st
      = short_step_branch env st := by
  obtain ⟨obj, cons, vub, masf, mcons⟩ := env
  rfl

/-- C7: a step-back-with-short-step turn leaves `_n_iterations_left` and the
step number unchanged, replaces the current iteration point by
`0.5 * z_current + 0.5 * z_previous`, and never invokes the reference solver
(the run is unchanged when the `minimize_asf` entry point is swapped out). -/
theorem short_step_frame (env env' : Env) (st : NState) (resp : Response) (upp : Bool)
    (h1 : resp.step_back = some true) (h2 : resp.short_step = some true)
    (h3 : resp.use_previous_preference = some upp) (h4 : resp.n_iterations = none)
    (h5 : ¬ st._n_iterations_left ≤ 1)
    (z_cur z_prev : List ℚ)
    (hz1 : st._zs.getD st._step_number none = some z_cur)
    (hz2 : st._zs.getD (st._step_number - 1) none = some z_prev) :
    (∀ st' r, handle_request env st resp = Except.ok (st', r) →
        st'._n_iterations_left = st._n_iterations_left
      ∧ st'._step_number = st._step_number
      ∧ st'._zs.getD st._step_number none
          = some (List.zipWith (fun a b => (1 / 2 : ℚ) * a + (1 / 2 : ℚ) * b) z_cur z_prev))
  ∧ handle_request { env with minimize_asf := env'.minimize_asf } st resp
      = handle_request env st resp := by
  constructor
  · intro st' r h
    rw [handle_request_short_step_dispatch env st resp upp h1 h2 h3 h4 h5] at h
    exact short_step_branch_spec env { st with _step_back := true } hz1 hz2 h
  · rw [handle_request_short_step_dispatch { env with minimize_asf := env'.minimize_asf }
        st resp upp h1 h2 h3 h4 h5,
      handle_request_short_step_dispatch env st resp upp h1 h2 h3 h4 h5]
    exact short_step_branch_asf_irrel env env' { st with _step_back := true }

/-- Witness for C7: swapping the reference solver does not change a concrete
short-step turn. -/
theorem short_step_frame_witness :
    handle_request { env_ok with minimize_asf := env_alt.minimize_asf } st_mid resp_short_step
      = handle_request env_ok st_mid resp_short_step :=
  (short_step_frame env_ok env_alt st_mid resp_short_step true rfl rfl rfl rfl (by decide)
    [8, 8] [10, 10] rfl rfl).2

/-- C8: on an intermediate turn with at most one iteration left (and no
iteration-count change in the response), `handle_request` zeroes the
remaining count and returns the terminal payload built from the history
entries at the current step number with the message
"Final solution found."; and `iterate` on a stop request is a no-op
returning the same request with the state untouched. -/
theorem termination_and_terminal_no_op :
    (∀ (env : Env) (st : NState) (resp : Response),
        resp.n_iterations = none → st._n_iterations_left ≤ 1 →
        handle_request env st resp
          = Except.ok ({ st with _n_iterations_left := 0 },
              some (Request.stop (st._xs.getD st._step_number none)
                (st._fs.getD st._step_number none) "Final solution found.")))
  ∧ (∀ (env : Env) (st : NState) (x f : Option (List ℚ)) (m : String) (resp : Response),
        iterate env st (Request.stop x f m) resp
          = Except.ok (st, some (Request.stop x f m))) := by
  constructor
  · intro env st resp hni hle
    obtain ⟨ni, pm, pinfo, sb, ss, up⟩ := resp
    dsimp only at hni
    subst hni
    unfold handle_request
    dsimp only
    rw [if_pos hle]
    rfl
  · intro env st x f m resp
    rfl

/-- Witness for C8: a concrete terminal turn and a concrete no-op dispatch
on its stop request. -/
theorem termination_witness :
    handle_request env_ok st_last resp_continue
      = Except.ok ({ st_last with _n_iterations_left := 0 },
          some (Request.stop (st_last._xs.getD st_last._step_number none)
            (st_last._fs.getD st_last._step_number none) "Final solution found."))
  ∧ iterate env_ok st_mid (Request.stop (some [1, 1]) (some [1, 1]) "Final solution found.")
        resp_continue
      = Except.ok (st_mid,
          some (Request.stop (some [1, 1]) (some [1, 1]) "Final solution found.")) :=
  ⟨termination_and_terminal_no_op.1 env_ok st_last resp_continue rfl (by decide),
   termination_and_terminal_no_op.2 env_ok st_mid (some [1, 1]) (some [1, 1])
     "Final solution found." resp_continue⟩

/-- C9 counterexample: the combination `step_back = true`,
`short_step = false`, `use_previous_preference = true` passes response
validation and `handle_request` silently falls off the end of the branch
family, returning `None` with only the `_step_back` flag set — no
`ValidationError` (or any other error) is raised. -/
theorem fall_through_counterexample :
    validate_response 2 resp_fall_through false = Except.ok ()
  ∧ handle_request env_ok st_mid resp_fall_through
      = Except.ok ({ st_mid with _step_back := true }, none) :=
  ⟨rfl, rfl⟩

/-- C9 (amended): the combination `step_back = true`, `short_step = false`,
`use_previous_preference = true` is accepted by the validator and is then
handled by no branch: on a non-terminal turn `handle_request` returns no
request at all (`None`), with only the `_step_back` flag mutated. -/
theorem fall_through_combination (env : Env) (st : NState) (resp : Response) (n : ℕ)
    (h1 : resp.use_previous_preference = some true)
    (h2 : resp.step_back = some true)
    (h3 : resp.short_step = some false)
    (h4 : resp.n_iterations = none)
    (h5 : ¬ st._n_iterations_left ≤ 1) :
    validate_response n resp false = Except.ok ()
  ∧ handle_request env st resp = Except.ok ({ st with _step_back := true }, none) := by
  obtain ⟨ni, pm, pinfo, sb, ss, up⟩ := resp
  dsimp only at h1 h2 h3 h4
  subst h1
  subst h2
  subst h3
  subst h4
  constructor
  · rfl
  · unfold handle_request
    dsimp only
    rw [if_neg h5]
    rfl

/-- Witness for C9 (amended) at a different concrete state and environment
than the counterexample. -/
theorem fall_through_combination_witness :
    validate_response 3 resp_fall_through false = Except.ok ()
  ∧ handle_request env_alt { st_mid with _n_iterations_left := 3 } resp_fall_through
      = Except.ok ({ { st_mid with _n_iterations_left := 3 } with _step_back := true },
          none) :=
  fall_through_combination env_alt { st_mid with _n_iterations_left := 3 }
    resp_fall_through 3 rfl rfl rfl rfl (by decide)

/-- The continue branch never produces a stop request. -/
theorem returns_stop_continue_branch (env : Env) (st : NState) :
    returns_stop (continue_branch env st) = false := by
  unfold continue_branch
  lift_lets
  extract_lets
  split
  · lift_lets
    extract_lets
    split
    · rfl
    · rfl
  · rfl

/-- The short-step branch never produces a stop request. -/
theorem returns_stop_short_step_branch (env : Env) (st : NState) :
    returns_stop (short_step_branch env st) = false := by
  unfold short_step_branch
  lift_lets
  extract_lets
  split
  · lift_lets
    extract_lets
    split
    · rfl
    · rfl
  · rfl

/-- The new-preference branch never produces a stop request. -/
theorem returns_stop_new_preference_branch (env : Env) (st : NState) (resp : Response) :
    returns_stop (new_preference_branch env st resp) = false := by
  unfold new_preference_branch
  split
  · lift_lets
    extract_lets s2 pf s3 x0
    clear_value s3 pf
    cases hq : s3._zs.getD (s3._step_number - 1) none with
    | none => rfl
    | some q =>
      cases hw : pf with
      | none => rfl
      | some w =>
        dsimp only
        split
        · rfl
        · rfl
  · rfl

/-- C10: a response carrying an `n_iterations` entry `k` makes
`handle_request` behave exactly as if both iteration counters had been `k`
all along (any previously consumed iterations are forgotten), and the
termination test is decided by the new `k`: `k ≤ 1` terminates the turn,
`k ≥ 2` prevents termination regardless of the previous remaining count. -/
theorem change_iterations_resets_and_decides (env : Env) (st : NState)
    (resp : Response) (k : ℤ) (hk : resp.n_iterations = some k) :
    (handle_request env st resp
      = handle_request env { st with _n_iterations := k, _n_iterations_left := k }
          { resp with n_iterations := none })
  ∧ (k ≤ 1 → returns_stop (handle_request env st resp) = true)
  ∧ (2 ≤ k → returns_stop (handle_request env st resp) = false) := by
  obtain ⟨ni, pm, pinfo, sb, ss, up⟩ := resp
  dsimp only at hk
  subst hk
  refine ⟨rfl, ?_, ?_⟩
  · intro hk1
    unfold handle_request
    dsimp only
    rw [if_pos hk1]
    rfl
  · intro hk2
    unfold handle_request
    dsimp only
    rw [if_neg (by omega)]
    cases up with
    | none => rfl
    | some u =>
      cases sb with
      | none => rfl
      | some b =>
        cases b with
        | true =>
          cases ss with
          | none => cases u <;> rfl
          | some s =>
            cases s with
            | true => cases u <;> exact returns_stop_short_step_branch _ _
            | false =>
              cases u with
              | true => rfl
              | false => exact returns_stop_new_preference_branch _ _ _
        | false =>
          cases u with
          | true => exact returns_stop_continue_branch _ _
          | false => rfl

/-- Witness for C10: changing the count to `8` on a concrete turn prevents
termination. -/
theorem change_iterations_witness :
    returns_stop (handle_request env_ok st_mid resp_change_iterations) = false :=
  (change_iterations_resets_and_decides env_ok st_mid resp_change_iterations 8 rfl).2.2
    (by norm_num)

end Nautilus

